import Mathlib

/-!
Verification of the DocuFlow data layer.

Shallow embedding of `src/lib/documents.ts` together with the PostgreSQL
schema and row-level-security (RLS) policies of the two migrations
`20250720165602_noisy_dream.sql` and `20250720170937_tight_villa.sql`.
The second migration's `DROP POLICY` / `CREATE POLICY` statements supersede
several policies of the first one; the policy functions below are the final
state after both migrations are applied in order.

Modelling conventions:
- the database is a record of row lists, one per table, in insertion order;
- `supabase.auth.getUser()` is an `Option String` (the acting user id);
- server-generated values (uuid primary keys, the storage token from
  `uuidv4()`, timestamps) are passed as explicit parameters;
- a JavaScript `throw` is `Except.error`, a returned `{ data, error }`
  object is an `SbResult` inside `Except.ok`;
- the outcome of the file-bytes upload to storage and of the
  fire-and-forget activity insert are oracle `Bool` parameters, since those
  remote calls can fail independently of the database state.
-/

namespace DocuFlow

/-- Acting identity as produced by `supabase.auth.getUser()`: either a
signed-in user id or nothing. -/
abbrev Auth := Option String

/-- Share permission levels, `CHECK (permission IN ('view', 'comment', 'edit'))`. -/
inductive Permission where
  | view
  | comment
  | edit
deriving DecidableEq, Repr

/-- Approval status, `CHECK (status IN ('pending', 'approved', 'rejected'))`. -/
inductive ApprovalStatus where
  | pending
  | approved
  | rejected
deriving DecidableEq, Repr

/-- The TypeScript argument type `'approved' | 'rejected'` of
`updateApprovalStatus`. -/
inductive Resolution where
  | approved
  | rejected
deriving DecidableEq, Repr

def Resolution.toStatus : Resolution → ApprovalStatus
  | .approved => .approved
  | .rejected => .rejected

def statusText : ApprovalStatus → String
  | .pending => "pending"
  | .approved => "approved"
  | .rejected => "rejected"

def permissionText : Permission → String
  | .view => "view"
  | .comment => "comment"
  | .edit => "edit"

/-- A JSON scalar as used in the `details` payloads passed to `logActivity`. -/
inductive JsonVal where
  | str (s : String)
  | num (n : Int)
deriving DecidableEq, Repr

/-- A JSON object payload: the `details` column of `activity_logs`. -/
abbrev Details := List (String × JsonVal)

/-- Row of the `documents` table (timestamps are omitted: no claim under
verification mentions them). -/
structure DocumentRow where
  id : String
  title : String
  description : Option String
  created_by : String
  is_public : Bool
deriving DecidableEq, Repr

/-- Row of the `document_versions` table. -/
structure VersionRow where
  id : String
  document_id : String
  version_number : Int
  file_path : String
  file_name : String
  file_size : Int
  mime_type : String
  uploaded_by : String
  notes : Option String
deriving DecidableEq, Repr

/-- Row of the `comments` table. -/
structure CommentRow where
  id : String
  document_id : String
  version_id : Option String
  content : String
  created_by : String
  parent_id : Option String
deriving DecidableEq, Repr

/-- Row of the `approvals` table (`updated_at` is kept because
`updateApprovalStatus` writes it). -/
structure ApprovalRow where
  id : String
  document_id : String
  version_id : Option String
  requested_by : String
  assigned_to : String
  status : ApprovalStatus
  notes : Option String
  updated_at : String
deriving DecidableEq, Repr

/-- Row of the `activity_logs` table. -/
structure ActivityRow where
  id : String
  document_id : String
  user_id : String
  action : String
  details : Details
deriving DecidableEq, Repr

/-- Row of the `document_shares` table. -/
structure ShareRow where
  id : String
  document_id : String
  shared_with : String
  permission : Permission
  shared_by : String
deriving DecidableEq, Repr

/-- The remote state: one list per table, rows in insertion order, plus the
set of object paths in the `documents` storage bucket. -/
structure DB where
  documents : List DocumentRow
  document_versions : List VersionRow
  comments : List CommentRow
  approvals : List ApprovalRow
  activity_logs : List ActivityRow
  document_shares : List ShareRow
  storage_objects : List String
deriving DecidableEq, Repr

/-- Errors surfaced by the backend in the `error` slot of a `{ data, error }`
pair. -/
inductive DbError where
  | conflict (constraintName : String)
  | rlsViolation (table : String)
  | noRows
  | multipleRows
  | storageFailure
  | insertFailure
deriving DecidableEq, Repr

/-- A `{ data, error }` pair as returned by the backend client. -/
structure SbResult (α : Type) where
  data : Option α
  error : Option DbError
deriving DecidableEq, Repr

def okRes {α : Type} (a : α) : SbResult α := ⟨some a, none⟩

def errRes {α : Type} (e : DbError) : SbResult α := ⟨none, some e⟩

/-- `.single()`: exactly one row yields data, zero rows is an error
(PGRST116), more than one row is an error as well. -/
def single {α : Type} : List α → SbResult α
  | [x] => okRes x
  | [] => errRes .noRows
  | _ => errRes .multipleRows

/-! ### Row-level-security policies (final state after both migrations) -/

/-- `EXISTS` test used by several policies:
`document_id IN (SELECT id FROM documents WHERE created_by = auth.uid())`. -/
def docOwned (uid : String) (db : DB) (docId : String) : Bool :=
  db.documents.any (fun d => d.id == docId && d.created_by == uid)

/-- `document_id IN (SELECT id FROM documents WHERE is_public = true)`. -/
def docPublic (db : DB) (docId : String) : Bool :=
  db.documents.any (fun d => d.id == docId && d.is_public)

/-- SELECT on `documents`: the second migration drops the share-based read
policy and leaves "Users can read own documents" OR
"Users can read public documents"; all policies are `TO authenticated`. -/
def docSelectAllowed : Auth → DocumentRow → Bool
  | none, _ => false
  | some uid, d => d.created_by == uid || d.is_public

/-- SELECT on `document_versions`: "Users can read versions of own documents"
OR "Users can read versions of public documents" (final state). -/
def versionSelectAllowed : Auth → DB → VersionRow → Bool
  | none, _, _ => false
  | some uid, db, v => docOwned uid db v.document_id || docPublic db v.document_id

/-- INSERT on `document_versions`: "Users can create versions for own
documents" (final state; the edit-share clause of the first migration was
dropped): document owned AND `uploaded_by = auth.uid()`. -/
def versionInsertCheck (uid : String) (db : DB) (v : VersionRow) : Bool :=
  docOwned uid db v.document_id && v.uploaded_by == uid

/-- SELECT on `comments` (final state): own documents OR public documents. -/
def commentSelectAllowed : Auth → DB → CommentRow → Bool
  | none, _, _ => false
  | some uid, db, c => docOwned uid db c.document_id || docPublic db c.document_id

/-- INSERT on `comments` (final state): document owned AND
`created_by = auth.uid()`. -/
def commentInsertCheck (uid : String) (db : DB) (c : CommentRow) : Bool :=
  docOwned uid db c.document_id && c.created_by == uid

/-- SELECT on `approvals` (final state): document owned OR
`assigned_to = auth.uid()`. -/
def approvalSelectAllowed : Auth → DB → ApprovalRow → Bool
  | none, _, _ => false
  | some uid, db, a => docOwned uid db a.document_id || a.assigned_to == uid

/-- INSERT on `approvals` (final state): document owned AND
`requested_by = auth.uid()`. -/
def approvalInsertCheck (uid : String) (db : DB) (a : ApprovalRow) : Bool :=
  docOwned uid db a.document_id && a.requested_by == uid

/-- UPDATE on `approvals` ("Assigned users can update approval status",
unchanged by the second migration): `USING (assigned_to = auth.uid())`.
The `WITH CHECK` clause is the same predicate and the update never changes
`assigned_to`, so it is subsumed by the `USING` test. -/
def approvalUpdateUsing : Auth → ApprovalRow → Bool
  | none, _ => false
  | some uid, a => a.assigned_to == uid

/-- SELECT on `activity_logs` (final state): document owned. -/
def activitySelectAllowed : Auth → DB → ActivityRow → Bool
  | none, _, _ => false
  | some uid, db, r => docOwned uid db r.document_id

/-- INSERT on `activity_logs`: `WITH CHECK (user_id = auth.uid())`. -/
def activityInsertCheck (uid : String) (r : ActivityRow) : Bool :=
  r.user_id == uid

/-- SELECT on `document_shares` (final state): "Users can read their own
shares" OR the `USING` clause of the `FOR ALL` policy, all of which reduce to
`shared_with = auth.uid() OR shared_by = auth.uid()`. -/
def shareSelectAllowed : Auth → ShareRow → Bool
  | none, _ => false
  | some uid, s => s.shared_with == uid || s.shared_by == uid

/-- Write check on `document_shares` (final state of "Document owners can
manage shares", which the second migration rewrote): `WITH CHECK
(shared_by = auth.uid())` — the document-ownership test of the first
migration was dropped. -/
def shareWriteCheck (uid : String) (s : ShareRow) : Bool :=
  s.shared_by == uid

/-- SELECT on `storage.objects` ("Users can read their accessible
documents", untouched by the second migration): first path folder must be an
accessible document id, where accessible keeps the share clause. -/
def storageSelectAllowed (uid : String) (db : DB) (docId : String) : Bool :=
  docOwned uid db docId || docPublic db docId ||
    db.document_shares.any (fun s => s.document_id == docId && s.shared_with == uid)

/-! ### String helpers translated from the JavaScript in `documents.ts` -/

/-- Splitter for JavaScript `s.split(c)` with a one-character separator,
written by structural recursion over the character list. -/
def splitCharAux (sep : Char) : List Char → List Char → List String
  | [], acc => [String.mk acc.reverse]
  | c :: cs, acc =>
    if c = sep then String.mk acc.reverse :: splitCharAux sep cs []
    else splitCharAux sep cs (c :: acc)

def jsSplitChar (sep : Char) (s : String) : List String :=
  splitCharAux sep s.toList []

/-- `file.name.split('.').pop()`: the last dot-separated component of the
file name (the whole name when it contains no dot, the empty string for an
empty name). -/
def jsFileExt (name : String) : String :=
  (jsSplitChar '.' name).getLastD ""

/-- JavaScript `s.substring(0, n)`. -/
def substringTo (s : String) (n : Nat) : String :=
  String.mk (s.toList.take n)

/-- The storage path built by `uploadDocumentVersion`
(documents.ts lines 51-53):
`fileExt = file.name.split('.').pop(); fileName = uuid.ext;
filePath = documentId/fileName`. -/
def versionFilePath (documentId uuidToken fileName : String) : String :=
  documentId ++ "/" ++ uuidToken ++ "." ++ jsFileExt fileName

/-- Maximum of a list of integers, used to model the source's
`order('version_number', descending).limit(1)` followed by taking the head:
the head of the descending ordering is exactly the maximum. -/
def listMax : List Int → Option Int
  | [] => none
  | n :: ns =>
    match listMax ns with
    | none => some n
    | some m => some (max n m)

/-- documents.ts line 48: `versions[0].version_number + 1` when the
(descending) query returned a row, else `1`. -/
def nextVersionNumber (nums : List Int) : Int :=
  match listMax nums with
  | none => 1
  | some m => m + 1

/-- A `File` object as consumed by `uploadDocumentVersion`:
`file.name`, `file.size`, `file.type`. -/
structure FileObj where
  name : String
  size : Int
  type : String
deriving DecidableEq, Repr

/-! ### Table-level insert / upsert primitives

Postgres evaluates the RLS `WITH CHECK` predicate on the new row before the
index insertions that enforce unique constraints, so the RLS test comes
first; primary-key collisions for server-generated `gen_random_uuid()` keys
are not modelled (freshness of generated ids is a hypothesis of the theorems
that need it). -/

def insertDocumentRow (uid : String) (db : DB) (d : DocumentRow) :
    SbResult DocumentRow × DB :=
  if d.created_by == uid then
    (okRes d, { db with documents := db.documents ++ [d] })
  else (errRes (.rlsViolation "documents"), db)

def insertVersionRow (uid : String) (db : DB) (r : VersionRow) :
    SbResult VersionRow × DB :=
  if !(versionInsertCheck uid db r) then
    (errRes (.rlsViolation "document_versions"), db)
  else if db.document_versions.any
      (fun v => v.document_id == r.document_id &&
        v.version_number == r.version_number) then
    (errRes (.conflict "document_versions_document_id_version_number_key"), db)
  else
    (okRes r, { db with document_versions := db.document_versions ++ [r] })

def insertCommentRow (uid : String) (db : DB) (r : CommentRow) :
    SbResult CommentRow × DB :=
  if commentInsertCheck uid db r then
    (okRes r, { db with comments := db.comments ++ [r] })
  else (errRes (.rlsViolation "comments"), db)

def insertApprovalRow (uid : String) (db : DB) (r : ApprovalRow) :
    SbResult ApprovalRow × DB :=
  if approvalInsertCheck uid db r then
    (okRes r, { db with approvals := db.approvals ++ [r] })
  else (errRes (.rlsViolation "approvals"), db)

/-- The possibly-failing activity insert whose `{ data, error }` result
`logActivity` discards; `ok` is the oracle for a remote-side failure. -/
def insertActivityRow (uid : String) (db : DB) (r : ActivityRow) (ok : Bool) :
    SbResult ActivityRow × DB :=
  if !ok then (errRes .insertFailure, db)
  else if activityInsertCheck uid r then
    (okRes r, { db with activity_logs := db.activity_logs ++ [r] })
  else (errRes (.rlsViolation "activity_logs"), db)

/-- `supabase.from('document_shares').upsert(row)`.  The client sends
`Prefer: resolution=merge-duplicates` with no `on_conflict` column list, so
PostgREST's conflict target defaults to the primary key `id`; since the
inserted row carries a freshly generated `id`, the `ON CONFLICT (id) DO
UPDATE` arm never fires and the `UNIQUE (document_id, shared_with)`
constraint can still reject the insert with a uniqueness violation. -/
def upsertShareRow (uid : String) (db : DB) (r : ShareRow) :
    SbResult ShareRow × DB :=
  match db.document_shares.find? (fun s => s.id == r.id) with
  | some _ =>
    if shareWriteCheck uid r then
      (okRes r, { db with document_shares :=
        db.document_shares.map (fun s => if s.id == r.id then r else s) })
    else (errRes (.rlsViolation "document_shares"), db)
  | none =>
    if !(shareWriteCheck uid r) then
      (errRes (.rlsViolation "document_shares"), db)
    else if db.document_shares.any
        (fun s => s.document_id == r.document_id &&
          s.shared_with == r.shared_with) then
      (errRes (.conflict "document_shares_document_id_shared_with_key"), db)
    else
      (okRes r, { db with document_shares := db.document_shares ++ [r] })

/-! ### The operations of `src/lib/documents.ts` -/

/-- Common tail of every mutating operation in `documents.ts`:
`if (!error && data) { await logActivity(...) } return { data, error };`
the `{ data, error }` pair of the main call is returned unchanged, the
activity append only touches the state. -/
def finishOp {α : Type} (step : SbResult α × DB) (log : α → DB) :
    Except String (SbResult α × DB) :=
  match step.1.error, step.1.data with
  | none, some a => .ok (step.1, log a)
  | _, _ => .ok (step.1, step.2)

/-- `logActivity(documentId, action, details?)`: returns without inserting
when no identity is present, and discards the result of the insert
otherwise (the source neither inspects nor propagates it). -/
def logActivity (auth : Auth) (db : DB) (documentId action : String)
    (details : Details) (rowId : String) (ok : Bool) : DB :=
  match auth with
  | none => db
  | some uid =>
    (insertActivityRow uid db
      { id := rowId, document_id := documentId, user_id := uid,
        action := action, details := details } ok).2

/-- `createDocument(title, description?)`.  `docId` and `actId` stand for the
server-generated primary keys, `actOk` for the outcome of the activity
insert.  A missing identity is a thrown `Error` (`Except.error`). -/
def createDocument (auth : Auth) (db : DB) (title : String)
    (description : Option String) (docId actId : String) (actOk : Bool) :
    Except String (SbResult DocumentRow × DB) :=
  match auth with
  | none => .error "User not authenticated"
  | some uid =>
    let row : DocumentRow :=
      { id := docId, title := title, description := description,
        created_by := uid, is_public := false }
    let step := insertDocumentRow uid db row
    finishOp step (fun d => logActivity auth step.2 d.id "document_created"
      [("title", .str title)] actId actOk)

/-- `uploadDocumentVersion(documentId, file, notes?)`.
`uuidToken` is the value of `uuidv4()`, `storageOk` the outcome of the
storage upload, `verId`/`actId` the server-generated row ids. -/
def uploadDocumentVersion (auth : Auth) (db : DB) (documentId : String)
    (file : FileObj) (notes : Option String) (uuidToken : String)
    (storageOk : Bool) (verId actId : String) (actOk : Bool) :
    Except String (SbResult VersionRow × DB) :=
  match auth with
  | none => .error "User not authenticated"
  | some uid =>
    let visible := db.document_versions.filter
      (fun v => v.document_id == documentId && versionSelectAllowed auth db v)
    let nextVersion := nextVersionNumber (visible.map (·.version_number))
    let filePath := versionFilePath documentId uuidToken file.name
    if !storageOk then
      .ok (errRes .storageFailure, db)
    else
      let dbS := { db with storage_objects := db.storage_objects ++ [filePath] }
      let row : VersionRow :=
        { id := verId, document_id := documentId,
          version_number := nextVersion, file_path := filePath,
          file_name := file.name, file_size := file.size,
          mime_type := file.type, uploaded_by := uid, notes := notes }
      let step := insertVersionRow uid dbS row
      finishOp step (fun _ =>
        logActivity auth step.2 documentId "version_uploaded"
          [("version", .num nextVersion), ("fileName", .str file.name)]
          actId actOk)

/-- `getDocuments()` (the embedded `document_versions` sub-select of the
original query is not modelled: no claim concerns the joined shape). -/
def getDocuments (auth : Auth) (db : DB) :
    Except String (SbResult (List DocumentRow) × DB) :=
  .ok (okRes (db.documents.filter (fun d => docSelectAllowed auth d)), db)

/-- `getDocument(documentId)`: RLS-filtered select with `.single()`, so an
inaccessible document is indistinguishable from an absent one. -/
def getDocument (auth : Auth) (db : DB) (documentId : String) :
    Except String (SbResult DocumentRow × DB) :=
  .ok (single (db.documents.filter
    (fun d => d.id == documentId && docSelectAllowed auth d)), db)

/-- `getDocumentVersions(documentId)` (result ordering by descending
version number is not modelled: the claims concern only which rows are
readable). -/
def getDocumentVersions (auth : Auth) (db : DB) (documentId : String) :
    Except String (SbResult (List VersionRow) × DB) :=
  .ok (okRes (db.document_versions.filter
    (fun v => v.document_id == documentId && versionSelectAllowed auth db v)), db)

/-- `downloadDocumentVersion(filePath)`: storage download subject to the
storage-object SELECT policy (first path folder = accessible document id). -/
def downloadDocumentVersion (auth : Auth) (db : DB) (filePath : String) :
    Except String (SbResult String × DB) :=
  match auth with
  | none => .ok (errRes (.rlsViolation "storage"), db)
  | some uid =>
    let docId := (jsSplitChar '/' filePath).headD ""
    if storageSelectAllowed uid db docId && db.storage_objects.contains filePath then
      .ok (okRes filePath, db)
    else .ok (errRes .noRows, db)

/-- `addComment(documentId, content, versionId?, parentId?)`. -/
def addComment (auth : Auth) (db : DB) (documentId content : String)
    (versionId parentId : Option String) (cid actId : String) (actOk : Bool) :
    Except String (SbResult CommentRow × DB) :=
  match auth with
  | none => .error "User not authenticated"
  | some uid =>
    let row : CommentRow :=
      { id := cid, document_id := documentId, version_id := versionId,
        content := content, created_by := uid, parent_id := parentId }
    let step := insertCommentRow uid db row
    finishOp step (fun _ =>
      logActivity auth step.2 documentId "comment_added"
        [("content", .str (substringTo content 50))] actId actOk)

/-- `getComments(documentId, versionId?)` (ascending `created_at` ordering
equals insertion order and is not modelled separately). -/
def getComments (auth : Auth) (db : DB) (documentId : String)
    (versionId : Option String) :
    Except String (SbResult (List CommentRow) × DB) :=
  let base := db.comments.filter
    (fun c => c.document_id == documentId && commentSelectAllowed auth db c)
  let rows :=
    match versionId with
    | none => base
    | some vid => base.filter (fun c => c.version_id == some vid)
  .ok (okRes rows, db)

/-- `requestApproval(documentId, assignedTo, versionId?, notes?)`; the
`status` column takes its `'pending'` default, `now` is the server
timestamp. -/
def requestApproval (auth : Auth) (db : DB) (documentId assignedTo : String)
    (versionId : Option String) (notes : Option String)
    (rowId : String) (now : String) (actId : String) (actOk : Bool) :
    Except String (SbResult ApprovalRow × DB) :=
  match auth with
  | none => .error "User not authenticated"
  | some uid =>
    let row : ApprovalRow :=
      { id := rowId, document_id := documentId, version_id := versionId,
        requested_by := uid, assigned_to := assignedTo,
        status := .pending, notes := notes, updated_at := now }
    let step := insertApprovalRow uid db row
    finishOp step (fun _ =>
      logActivity auth step.2 documentId "approval_requested"
        [("assignedTo", .str assignedTo)] actId actOk)

/-- `getApprovals(documentId)`. -/
def getApprovals (auth : Auth) (db : DB) (documentId : String) :
    Except String (SbResult (List ApprovalRow) × DB) :=
  .ok (okRes (db.approvals.filter
    (fun a => a.document_id == documentId && approvalSelectAllowed auth db a)), db)

/-- `updateApprovalStatus(approvalId, status, notes?)`.  The source performs
no `getUser()` call and no check of the current status before the update:
the RLS `USING (assigned_to = auth.uid())` clause alone decides which rows
are updated, and `.single()` turns zero updated rows into an error.
`now` is `new Date().toISOString()`. -/
def updateApprovalStatus (auth : Auth) (db : DB) (approvalId : String)
    (status : Resolution) (notes : Option String) (now : String)
    (actId : String) (actOk : Bool) :
    Except String (SbResult ApprovalRow × DB) :=
  let hits := db.approvals.filter
    (fun a => a.id == approvalId && approvalUpdateUsing auth a)
  let updated := hits.map
    (fun a => { a with status := status.toStatus, notes := notes,
                       updated_at := now })
  let newApprovals := db.approvals.map
    (fun a =>
      if a.id == approvalId && approvalUpdateUsing auth a then
        { a with status := status.toStatus, notes := notes, updated_at := now }
      else a)
  let db1 := { db with approvals := newApprovals }
  finishOp (single updated, db1) (fun a =>
    logActivity auth db1 a.document_id "approval_updated"
      [("status", .str (statusText status.toStatus))] actId actOk)

/-- `getActivityLog(documentId)`: RLS-filtered, ordered by descending
`created_at` (reverse insertion order) and limited to 50 entries. -/
def getActivityLog (auth : Auth) (db : DB) (documentId : String) :
    Except String (SbResult (List ActivityRow) × DB) :=
  .ok (okRes (((db.activity_logs.filter
    (fun r => r.document_id == documentId &&
      activitySelectAllowed auth db r)).reverse).take 50), db)

/-- `shareDocument(documentId, sharedWith, permission)`. -/
def shareDocument (auth : Auth) (db : DB) (documentId sharedWith : String)
    (permission : Permission) (rowId actId : String) (actOk : Bool) :
    Except String (SbResult ShareRow × DB) :=
  match auth with
  | none => .error "User not authenticated"
  | some uid =>
    let row : ShareRow :=
      { id := rowId, document_id := documentId, shared_with := sharedWith,
        permission := permission, shared_by := uid }
    let step := upsertShareRow uid db row
    finishOp step (fun _ =>
      logActivity auth step.2 documentId "document_shared"
        [("sharedWith", .str sharedWith),
         ("permission", .str (permissionText permission))] actId actOk)

/-! ### Observation helpers used by the theorem statements -/

/-- The `{ data, error }` pair a caller observes, discarding the state. -/
def resultOf {α : Type} : Except String (SbResult α × DB) → Except String (SbResult α)
  | .ok (r, _) => .ok r
  | .error e => .error e

/-- Whether a call returned (rather than threw). -/
def isOk {α : Type} : Except String α → Bool
  | .ok _ => true
  | .error _ => false

/-- The list payload of a successful read, `[]` otherwise. -/
def listData {α : Type} : Except String (SbResult (List α) × DB) → List α
  | .ok (r, _) => r.data.getD []
  | .error _ => []

/-- The `document_versions` table of the resulting state. -/
def versionsOf {α : Type} (db : DB) : Except String (SbResult α × DB) → List VersionRow
  | .ok (_, db') => db'.document_versions
  | .error _ => db.document_versions

/-- The `approvals` table of the resulting state. -/
def approvalsOf {α : Type} (db : DB) : Except String (SbResult α × DB) → List ApprovalRow
  | .ok (_, db') => db'.approvals
  | .error _ => db.approvals

/-- The `document_shares` table of the resulting state. -/
def sharesOf {α : Type} (db : DB) : Except String (SbResult α × DB) → List ShareRow
  | .ok (_, db') => db'.document_shares
  | .error _ => db.document_shares

/-- Per-document uniqueness of version numbers, as enforced by
`UNIQUE (document_id, version_number)`: no row is followed by another row
with the same document and number. -/
def noDupVN : List VersionRow → Bool
  | [] => true
  | v :: vs =>
    !(vs.any (fun w => w.document_id == v.document_id &&
      w.version_number == v.version_number)) && noDupVN vs

/-- Modelled from the claim wording of C2 (spec §3 invariants): an identity
can read a document iff it created it, the document is public, or it holds a
Share on it.  Stated only to compare the spec's predicate with the code's
final policies. -/
def specCanReadDocument (u : String) (db : DB) (d : DocumentRow) : Bool :=
  d.created_by == u || d.is_public ||
    db.document_shares.any (fun s => s.document_id == d.id && s.shared_with == u)

/-- Modelled from the claim wording of C3 (spec §4.3 step 1): the acting
identity holds a Share with `edit` permission on the document.  Stated only
to phrase the claim's authorization disjunction. -/
def hasEditShare (u : String) (db : DB) (docId : String) : Bool :=
  db.document_shares.any
    (fun s => s.document_id == docId && s.shared_with == u &&
      s.permission == .edit)

/-! ### Shared concrete states for counterexamples and witnesses -/

/-- The empty remote state. -/
def db0 : DB :=
  { documents := [], document_versions := [], comments := [], approvals := [],
    activity_logs := [], document_shares := [], storage_objects := [] }

/-- A private document owned by `u1`. -/
def docD1 : DocumentRow :=
  { id := "d1", title := "Spec v1", description := none, created_by := "u1",
    is_public := false }

/-- State with just `docD1`. -/
def dbOwn : DB := { db0 with documents := [docD1] }

/-- An `edit` share on `docD1` for `u2`, granted by `u1`. -/
def shareU2 : ShareRow :=
  { id := "s0", document_id := "d1", shared_with := "u2",
    permission := .edit, shared_by := "u1" }

/-- State with `docD1` shared (edit) with `u2`. -/
def dbShared : DB := { dbOwn with document_shares := [shareU2] }

/-- An approval on `docD1`, assigned to `u2` and already resolved. -/
def apprA1 : ApprovalRow :=
  { id := "a1", document_id := "d1", version_id := none, requested_by := "u1",
    assigned_to := "u2", status := .approved, notes := none,
    updated_at := "t1" }

/-- State with `docD1` and the already-approved `apprA1`. -/
def dbResolved : DB := { dbOwn with approvals := [apprA1] }

/-- The share row created by the first `shareDocument` call of the C5
scenario. -/
def share1 : ShareRow :=
  { id := "s1", document_id := "d1", shared_with := "u2",
    permission := .edit, shared_by := "u1" }

/-- State after `shareDocument(d1, u2, edit)` by the owner `u1`. -/
def dbShare1 : DB :=
  { dbOwn with
      document_shares := [share1],
      activity_logs := [{ id := "x1", document_id := "d1", user_id := "u1",
                          action := "document_shared",
                          details := [("sharedWith", .str "u2"),
                                      ("permission", .str "edit")] }] }

/-- A pre-existing version of `docD1` with number 1. -/
def verV1 : VersionRow :=
  { id := "v1", document_id := "d1", version_number := 1,
    file_path := "d1/t0.pdf", file_name := "old.pdf", file_size := 10,
    mime_type := "application/pdf", uploaded_by := "u1", notes := none }

/-- State with `docD1` and one version. -/
def dbVer : DB := { dbOwn with document_versions := [verV1] }

/-- The file uploaded in the witness scenarios. -/
def fileSpec : FileObj :=
  { name := "spec.pdf", size := 1024, type := "application/pdf" }

/-- The version row created by uploading `fileSpec` to `dbVer`. -/
def c1row : VersionRow :=
  { id := "v2", document_id := "d1", version_number := 2,
    file_path := "d1/tok.pdf", file_name := "spec.pdf", file_size := 1024,
    mime_type := "application/pdf", uploaded_by := "u1", notes := none }

/-- The `{ data, error }` pair of that upload. -/
def c1res : SbResult VersionRow := okRes c1row

/-- The state after that upload. -/
def c1db : DB :=
  { documents := [docD1], document_versions := [verV1, c1row],
    comments := [], approvals := [],
    activity_logs := [{ id := "x9", document_id := "d1", user_id := "u1",
                        action := "version_uploaded",
                        details := [("version", .num 2),
                                    ("fileName", .str "spec.pdf")] }],
    document_shares := [], storage_objects := ["d1/tok.pdf"] }

/-- A competing version row carrying the same document and number as
`c1row` under a fresh id. -/
def c1rowB : VersionRow := { c1row with id := "v3" }

/-! ### Helper lemmas -/

theorem resultOf_finishOp {α : Type} (step : SbResult α × DB) (log : α → DB) :
    resultOf (finishOp step log) = .ok step.1 := by
  unfold finishOp
  split <;> rfl

theorem isOk_finishOp {α : Type} (step : SbResult α × DB) (log : α → DB) :
    isOk (finishOp step log) = true := by
  unfold finishOp
  split <;> rfl

theorem finishOp_of_ok {α : Type} (step : SbResult α × DB) (log : α → DB)
    (a : α) (h1 : step.1.error = none) (h2 : step.1.data = some a) :
    finishOp step log = .ok (step.1, log a) := by
  unfold finishOp
  rw [h1, h2]

theorem finishOp_of_err {α : Type} (step : SbResult α × DB) (log : α → DB)
    (e : DbError) (h : step.1.error = some e) :
    finishOp step log = .ok (step.1, step.2) := by
  unfold finishOp
  rw [h]

theorem substringTo_length_le (s : String) (n : Nat) :
    (substringTo s n).length ≤ n := by
  show (s.toList.take n).length ≤ n
  rw [List.length_take]
  omega

theorem substringTo_of_le (s : String) (n : Nat) (h : s.length ≤ n) :
    substringTo s n = s := by
  cases s with
  | mk data =>
    show String.mk (data.take n) = String.mk data
    rw [List.take_of_length_le h]

/-- Only `storage_objects` differs between the state in which
`uploadDocumentVersion` runs its insert and the state in which it computed
the next version number, so document ownership is unaffected. -/
theorem docOwned_storage (uid : String) (db : DB) (s : List String)
    (docId : String) :
    docOwned uid { db with storage_objects := s } docId =
      docOwned uid db docId := rfl

theorem logActivity_documents (auth : Auth) (db : DB)
    (documentId action : String) (details : Details) (rowId : String)
    (ok : Bool) :
    (logActivity auth db documentId action details rowId ok).documents =
      db.documents := by
  cases auth with
  | none => rfl
  | some u =>
    show (insertActivityRow u db _ ok).2.documents = db.documents
    unfold insertActivityRow
    split
    · rfl
    · split <;> rfl

theorem logActivity_versions (auth : Auth) (db : DB)
    (documentId action : String) (details : Details) (rowId : String)
    (ok : Bool) :
    (logActivity auth db documentId action details rowId ok).document_versions =
      db.document_versions := by
  cases auth with
  | none => rfl
  | some u =>
    show (insertActivityRow u db _ ok).2.document_versions = db.document_versions
    unfold insertActivityRow
    split
    · rfl
    · split <;> rfl

theorem logActivity_approvals (auth : Auth) (db : DB)
    (documentId action : String) (details : Details) (rowId : String)
    (ok : Bool) :
    (logActivity auth db documentId action details rowId ok).approvals =
      db.approvals := by
  cases auth with
  | none => rfl
  | some u =>
    show (insertActivityRow u db _ ok).2.approvals = db.approvals
    unfold insertActivityRow
    split
    · rfl
    · split <;> rfl

theorem logActivity_shares (auth : Auth) (db : DB)
    (documentId action : String) (details : Details) (rowId : String)
    (ok : Bool) :
    (logActivity auth db documentId action details rowId ok).document_shares =
      db.document_shares := by
  cases auth with
  | none => rfl
  | some u =>
    show (insertActivityRow u db _ ok).2.document_shares = db.document_shares
    unfold insertActivityRow
    split
    · rfl
    · split <;> rfl

theorem resultOf_eq_of_eq {α : Type} (x : Except String (SbResult α × DB))
    (res : SbResult α) (db' : DB) (h : x = .ok (res, db')) :
    resultOf x = .ok res := by
  rw [h]
  rfl

/-- The pair returned by a successful-storage upload is exactly the pair of
the underlying version-row insert. -/
theorem upload_resultOf (u : String) (db : DB) (documentId : String)
    (file : FileObj) (notes : Option String) (uuidToken verId actId : String)
    (actOk : Bool) :
    resultOf (uploadDocumentVersion (some u) db documentId file notes
        uuidToken true verId actId actOk) =
      .ok (insertVersionRow u
        { db with storage_objects :=
            db.storage_objects ++ [versionFilePath documentId uuidToken file.name] }
        { id := verId, document_id := documentId,
          version_number := nextVersionNumber
            ((db.document_versions.filter (fun x =>
              x.document_id == documentId &&
                versionSelectAllowed (some u) db x)).map
              (fun x => x.version_number)),
          file_path := versionFilePath documentId uuidToken file.name,
          file_name := file.name, file_size := file.size,
          mime_type := file.type, uploaded_by := u, notes := notes }).1 := by
  simp [uploadDocumentVersion, resultOf_finishOp]

theorem insertVersionRow_data_some (uid : String) (db : DB)
    (r v : VersionRow) (h : (insertVersionRow uid db r).1.data = some v) :
    v = r ∧ versionInsertCheck uid db r = true := by
  unfold insertVersionRow at h
  split at h
  · rename_i h1
    exact absurd h (by simp [errRes])
  · split at h
    · exact absurd h (by simp [errRes])
    · rename_i h1 h2
      refine ⟨by simpa [okRes] using h.symm, ?_⟩
      simpa using h1

theorem insertVersionRow_not_allowed (uid : String) (db : DB) (r : VersionRow)
    (h : versionInsertCheck uid db r = false) :
    insertVersionRow uid db r = (errRes (.rlsViolation "document_versions"), db) := by
  unfold insertVersionRow
  rw [if_pos (by simp [h])]

theorem insertVersionRow_ok (uid : String) (db : DB) (r : VersionRow)
    (h : (insertVersionRow uid db r).1.error = none) :
    insertVersionRow uid db r =
      (okRes r, { db with document_versions := db.document_versions ++ [r] }) := by
  cases h1 : versionInsertCheck uid db r with
  | false =>
    exfalso
    rw [insertVersionRow_not_allowed uid db r h1] at h
    simp [errRes] at h
  | true =>
    cases h2 : db.document_versions.any
        (fun v => v.document_id == r.document_id &&
          v.version_number == r.version_number) with
    | true =>
      exfalso
      unfold insertVersionRow at h
      rw [if_neg (by simp [h1]), if_pos h2] at h
      simp [errRes] at h
    | false =>
      unfold insertVersionRow
      rw [if_neg (by simp [h1]), if_neg (by simp [h2])]

/-- `listMax` really is the maximum of the list. -/
theorem listMax_spec : ∀ (l : List Int) (m : Int), listMax l = some m →
    m ∈ l ∧ ∀ x ∈ l, x ≤ m := by
  intro l
  induction l with
  | nil =>
    intro m h
    simp [listMax] at h
  | cons n ns ih =>
    intro m h
    unfold listMax at h
    cases hns : listMax ns with
    | none =>
      rw [hns] at h
      injection h with h
      subst h
      have hnil : ns = [] := by
        cases ns with
        | nil => rfl
        | cons y ys =>
          exfalso
          unfold listMax at hns
          cases hys : listMax ys <;> simp [hys] at hns
      subst hnil
      exact ⟨List.mem_singleton.mpr rfl, by intro x hx; simp at hx; omega⟩
    | some k =>
      rw [hns] at h
      injection h with h
      subst h
      obtain ⟨hk1, hk2⟩ := ih k hns
      constructor
      · rcases le_total k n with hle | hle
        · rw [max_eq_left hle]
          exact List.mem_cons_self n ns
        · rw [max_eq_right hle]
          exact List.mem_cons_of_mem n hk1
      · intro x hx
        rcases List.mem_cons.mp hx with hx | hx
        · subst hx
          exact le_max_left _ _
        · exact le_trans (hk2 x hx) (le_max_right _ _)

/-- The per-pair duplicate test is symmetric. -/
theorem pairEq_symm (a b : VersionRow) :
    (a.document_id == b.document_id && a.version_number == b.version_number) =
      (b.document_id == a.document_id && b.version_number == a.version_number) := by
  have e1 : (a.document_id == b.document_id) = (b.document_id == a.document_id) := by
    by_cases h : a.document_id = b.document_id
    · rw [h]
    · rw [beq_eq_false_iff_ne.mpr h, beq_eq_false_iff_ne.mpr (fun hh => h hh.symm)]
  have e2 : (a.version_number == b.version_number) = (b.version_number == a.version_number) := by
    by_cases h : a.version_number = b.version_number
    · rw [h]
    · rw [beq_eq_false_iff_ne.mpr h, beq_eq_false_iff_ne.mpr (fun hh => h hh.symm)]
  rw [e1, e2]

theorem noDupVN_append (l : List VersionRow) (r : VersionRow)
    (hl : noDupVN l = true)
    (hr : l.any (fun v => v.document_id == r.document_id &&
      v.version_number == r.version_number) = false) :
    noDupVN (l ++ [r]) = true := by
  induction l with
  | nil => rfl
  | cons v vs ih =>
    simp only [noDupVN, Bool.and_eq_true, Bool.not_eq_true'] at hl
    obtain ⟨hl1, hl2⟩ := hl
    simp only [List.any_cons, Bool.or_eq_false_iff] at hr
    obtain ⟨hr1, hr2⟩ := hr
    simp only [List.cons_append, noDupVN, Bool.and_eq_true, Bool.not_eq_true']
    refine ⟨?_, ih hl2 hr2⟩
    rw [List.append_eq, List.any_append, hl1]
    simp only [List.any_cons, List.any_nil, Bool.or_false, Bool.false_or]
    rw [pairEq_symm]
    exact hr1

theorem insertVersionRow_noDup (uid : String) (db : DB) (r : VersionRow)
    (h : noDupVN db.document_versions = true) :
    noDupVN ((insertVersionRow uid db r).2).document_versions = true := by
  unfold insertVersionRow
  split
  · exact h
  · split
    · exact h
    · rename_i h1 h2
      exact noDupVN_append _ _ h (by simpa using h2)

theorem noDup_versionsOf_finishOp {α : Type} (db : DB)
    (step : SbResult α × DB) (log : α → DB)
    (hlog : ∀ a, (log a).document_versions = step.2.document_versions)
    (h : noDupVN step.2.document_versions = true) :
    noDupVN (versionsOf db (finishOp step log)) = true := by
  unfold finishOp
  split
  · show noDupVN (log _).document_versions = true
    rw [hlog]
    exact h
  · exact h

/-- When the uploader owns the document, the RLS read filter of the
version-number query keeps every version of the document, so the number is
computed over the document's full ledger. -/
theorem filter_collapse (u : String) (db : DB) (documentId : String)
    (hown : docOwned u db documentId = true) :
    db.document_versions.filter (fun x => x.document_id == documentId &&
        versionSelectAllowed (some u) db x) =
      db.document_versions.filter (fun x => x.document_id == documentId) := by
  apply List.filter_congr
  intro x hx
  cases hid : (x.document_id == documentId) with
  | false => simp [hid]
  | true =>
    have hid' : x.document_id = documentId := by simpa using hid
    have hpol : versionSelectAllowed (some u) db x = true := by
      simp only [versionSelectAllowed, hid', Bool.or_eq_true]
      exact Or.inl hown
    simp [hid, hpol]

/-- Definitional unfolding of `uploadDocumentVersion` when an identity is
present and the storage upload succeeds. -/
theorem upload_unfold (u : String) (db : DB) (documentId : String)
    (file : FileObj) (notes : Option String) (uuidToken verId actId : String)
    (actOk : Bool) :
    uploadDocumentVersion (some u) db documentId file notes uuidToken true
        verId actId actOk =
      finishOp (insertVersionRow u
        { db with storage_objects :=
            db.storage_objects ++ [versionFilePath documentId uuidToken file.name] }
        { id := verId, document_id := documentId,
          version_number := nextVersionNumber
            ((db.document_versions.filter (fun x =>
              x.document_id == documentId &&
                versionSelectAllowed (some u) db x)).map
              (fun x => x.version_number)),
          file_path := versionFilePath documentId uuidToken file.name,
          file_name := file.name, file_size := file.size,
          mime_type := file.type, uploaded_by := u, notes := notes })
        (fun _ => logActivity (some u)
          (insertVersionRow u
            { db with storage_objects :=
                db.storage_objects ++ [versionFilePath documentId uuidToken file.name] }
            { id := verId, document_id := documentId,
              version_number := nextVersionNumber
                ((db.document_versions.filter (fun x =>
                  x.document_id == documentId &&
                    versionSelectAllowed (some u) db x)).map
                  (fun x => x.version_number)),
              file_path := versionFilePath documentId uuidToken file.name,
              file_name := file.name, file_size := file.size,
              mime_type := file.type, uploaded_by := u, notes := notes }).2
          documentId "version_uploaded"
          [("version", JsonVal.num (nextVersionNumber
            ((db.document_versions.filter (fun x =>
              x.document_id == documentId &&
                versionSelectAllowed (some u) db x)).map
              (fun x => x.version_number)))),
           ("fileName", JsonVal.str file.name)] actId actOk) := rfl

/-! ### C8 -/

/-- C8: when the storage upload inside `uploadDocumentVersion` fails, the
call returns a null data value together with the upload error and leaves the
state — in particular the document's version ledger and activity log —
completely unchanged: no Version row and no ActivityLogEntry is written. -/
theorem C8_upload_failure_leaves_state (u : String) (db : DB)
    (documentId : String) (file : FileObj) (notes : Option String)
    (uuidToken verId actId : String) (actOk : Bool) :
    uploadDocumentVersion (some u) db documentId file notes uuidToken false
      verId actId actOk = .ok (⟨none, some .storageFailure⟩, db) := rfl

/-! ### C9 -/

/-- C9: `logActivity` never propagates a failure to its caller: with no
authenticated identity it returns the state unchanged, a failed activity
insert is discarded, and for every calling operation the returned
`{ data, error }` pair is independent of the activity-insert outcome. -/
theorem C9_log_activity_isolated :
    (∀ (db : DB) (documentId action : String) (details : Details)
       (rowId : String) (ok : Bool),
      logActivity none db documentId action details rowId ok = db)
    ∧ (∀ (u : String) (db : DB) (documentId action : String)
         (details : Details) (rowId : String),
      logActivity (some u) db documentId action details rowId false = db)
    ∧ (∀ (auth : Auth) (db : DB) (title : String)
         (description : Option String) (docId actId : String) (o1 o2 : Bool),
      resultOf (createDocument auth db title description docId actId o1) =
        resultOf (createDocument auth db title description docId actId o2))
    ∧ (∀ (auth : Auth) (db : DB) (documentId : String) (file : FileObj)
         (notes : Option String) (uuidToken : String) (storageOk : Bool)
         (verId actId : String) (o1 o2 : Bool),
      resultOf (uploadDocumentVersion auth db documentId file notes uuidToken
          storageOk verId actId o1) =
        resultOf (uploadDocumentVersion auth db documentId file notes uuidToken
          storageOk verId actId o2))
    ∧ (∀ (auth : Auth) (db : DB) (documentId content : String)
         (versionId parentId : Option String) (cid actId : String)
         (o1 o2 : Bool),
      resultOf (addComment auth db documentId content versionId parentId
          cid actId o1) =
        resultOf (addComment auth db documentId content versionId parentId
          cid actId o2))
    ∧ (∀ (auth : Auth) (db : DB) (documentId assignedTo : String)
         (versionId notes : Option String) (rowId now actId : String)
         (o1 o2 : Bool),
      resultOf (requestApproval auth db documentId assignedTo versionId notes
          rowId now actId o1) =
        resultOf (requestApproval auth db documentId assignedTo versionId notes
          rowId now actId o2))
    ∧ (∀ (auth : Auth) (db : DB) (approvalId : String) (status : Resolution)
         (notes : Option String) (now actId : String) (o1 o2 : Bool),
      resultOf (updateApprovalStatus auth db approvalId status notes now
          actId o1) =
        resultOf (updateApprovalStatus auth db approvalId status notes now
          actId o2))
    ∧ (∀ (auth : Auth) (db : DB) (documentId sharedWith : String)
         (permission : Permission) (rowId actId : String) (o1 o2 : Bool),
      resultOf (shareDocument auth db documentId sharedWith permission rowId
          actId o1) =
        resultOf (shareDocument auth db documentId sharedWith permission rowId
          actId o2)) := by
  refine ⟨fun _ _ _ _ _ _ => rfl, fun _ _ _ _ _ _ => rfl, ?_, ?_, ?_, ?_, ?_, ?_⟩
  · intro auth db title description docId actId o1 o2
    cases auth with
    | none => rfl
    | some u =>
      simp only [createDocument, resultOf_finishOp]
  · intro auth db documentId file notes uuidToken storageOk verId actId o1 o2
    cases auth with
    | none => rfl
    | some u =>
      cases storageOk with
      | false => rfl
      | true => simp [uploadDocumentVersion, resultOf_finishOp]
  · intro auth db documentId content versionId parentId cid actId o1 o2
    cases auth with
    | none => rfl
    | some u => simp only [addComment, resultOf_finishOp]
  · intro auth db documentId assignedTo versionId notes rowId now actId o1 o2
    cases auth with
    | none => rfl
    | some u => simp only [requestApproval, resultOf_finishOp]
  · intro auth db approvalId status notes now actId o1 o2
    simp only [updateApprovalStatus, resultOf_finishOp]
  · intro auth db documentId sharedWith permission rowId actId o1 o2
    cases auth with
    | none => rfl
    | some u => simp only [shareDocument, resultOf_finishOp]

/-! ### C7 -/

/-- C7 counterexample: with no authenticated identity, `createDocument`
throws (`Except.error` models the JavaScript `throw new Error(...)`) instead
of returning a `{ data, error }` pair carrying an Unauthenticated error
value, refuting the claim at this input. -/
theorem C7_counterexample :
    createDocument none db0 "Spec v1" none "doc-1" "act-1" true =
      .error "User not authenticated" := rfl

/-- C7 (amended): with an authenticated identity every operation returns a
`{ data, error }` pair; but the absence of an identity is thrown as an
exception by `createDocument`, `uploadDocumentVersion`, `addComment`,
`requestApproval` and `shareDocument` rather than returned as an error
value, while `updateApprovalStatus` (which never calls `getUser` before its
update) and the read operations return pairs for every identity including
none. -/
theorem C7_result_pairs_amended :
    (∀ (db : DB) (title : String) (description : Option String)
       (docId actId : String) (actOk : Bool),
      createDocument none db title description docId actId actOk =
        .error "User not authenticated")
    ∧ (∀ (db : DB) (documentId : String) (file : FileObj)
         (notes : Option String) (uuidToken : String) (storageOk : Bool)
         (verId actId : String) (actOk : Bool),
      uploadDocumentVersion none db documentId file notes uuidToken storageOk
        verId actId actOk = .error "User not authenticated")
    ∧ (∀ (db : DB) (documentId content : String)
         (versionId parentId : Option String) (cid actId : String)
         (actOk : Bool),
      addComment none db documentId content versionId parentId cid actId
        actOk = .error "User not authenticated")
    ∧ (∀ (db : DB) (documentId assignedTo : String)
         (versionId notes : Option String) (rowId now actId : String)
         (actOk : Bool),
      requestApproval none db documentId assignedTo versionId notes rowId now
        actId actOk = .error "User not authenticated")
    ∧ (∀ (db : DB) (documentId sharedWith : String)
         (permission : Permission) (rowId actId : String) (actOk : Bool),
      shareDocument none db documentId sharedWith permission rowId actId
        actOk = .error "User not authenticated")
    ∧ (∀ (u : String) (db : DB) (title : String)
         (description : Option String) (docId actId : String) (actOk : Bool),
      isOk (createDocument (some u) db title description docId actId actOk) =
        true)
    ∧ (∀ (u : String) (db : DB) (documentId : String) (file : FileObj)
         (notes : Option String) (uuidToken : String) (storageOk : Bool)
         (verId actId : String) (actOk : Bool),
      isOk (uploadDocumentVersion (some u) db documentId file notes uuidToken
        storageOk verId actId actOk) = true)
    ∧ (∀ (u : String) (db : DB) (documentId content : String)
         (versionId parentId : Option String) (cid actId : String)
         (actOk : Bool),
      isOk (addComment (some u) db documentId content versionId parentId cid
        actId actOk) = true)
    ∧ (∀ (u : String) (db : DB) (documentId assignedTo : String)
         (versionId notes : Option String) (rowId now actId : String)
         (actOk : Bool),
      isOk (requestApproval (some u) db documentId assignedTo versionId notes
        rowId now actId actOk) = true)
    ∧ (∀ (u : String) (db : DB) (documentId sharedWith : String)
         (permission : Permission) (rowId actId : String) (actOk : Bool),
      isOk (shareDocument (some u) db documentId sharedWith permission rowId
        actId actOk) = true)
    ∧ (∀ (auth : Auth) (db : DB) (approvalId : String) (status : Resolution)
         (notes : Option String) (now actId : String) (actOk : Bool),
      isOk (updateApprovalStatus auth db approvalId status notes now actId
        actOk) = true)
    ∧ (∀ (auth : Auth) (db : DB), isOk (getDocuments auth db) = true)
    ∧ (∀ (auth : Auth) (db : DB) (documentId : String),
      isOk (getDocument auth db documentId) = true)
    ∧ (∀ (auth : Auth) (db : DB) (documentId : String),
      isOk (getDocumentVersions auth db documentId) = true)
    ∧ (∀ (auth : Auth) (db : DB) (filePath : String),
      isOk (downloadDocumentVersion auth db filePath) = true)
    ∧ (∀ (auth : Auth) (db : DB) (documentId : String)
         (versionId : Option String),
      isOk (getComments auth db documentId versionId) = true)
    ∧ (∀ (auth : Auth) (db : DB) (documentId : String),
      isOk (getApprovals auth db documentId) = true)
    ∧ (∀ (auth : Auth) (db : DB) (documentId : String),
      isOk (getActivityLog auth db documentId) = true) := by
  refine ⟨fun _ _ _ _ _ _ => rfl, fun _ _ _ _ _ _ _ _ _ => rfl,
    fun _ _ _ _ _ _ _ _ => rfl, fun _ _ _ _ _ _ _ _ _ => rfl,
    fun _ _ _ _ _ _ _ => rfl, ?_, ?_, ?_, ?_, ?_, ?_, ?_, ?_, ?_, ?_, ?_, ?_, ?_⟩
  · intro u db title description docId actId actOk
    simp only [createDocument, isOk_finishOp]
  · intro u db documentId file notes uuidToken storageOk verId actId actOk
    cases storageOk with
    | false => rfl
    | true => simp [uploadDocumentVersion, isOk_finishOp]
  · intro u db documentId content versionId parentId cid actId actOk
    simp only [addComment, isOk_finishOp]
  · intro u db documentId assignedTo versionId notes rowId now actId actOk
    simp only [requestApproval, isOk_finishOp]
  · intro u db documentId sharedWith permission rowId actId actOk
    simp only [shareDocument, isOk_finishOp]
  · intro auth db approvalId status notes now actId actOk
    simp only [updateApprovalStatus, isOk_finishOp]
  · intro auth db
    rfl
  · intro auth db documentId
    rfl
  · intro auth db documentId
    rfl
  · intro auth db filePath
    cases auth with
    | none => rfl
    | some u =>
      simp only [downloadDocumentVersion]
      split <;> rfl
  · intro auth db documentId versionId
    cases versionId <;> rfl
  · intro auth db documentId
    rfl
  · intro auth db documentId
    rfl

/-! ### C10 -/

/-- C10: for every successful `addComment(D, content, ...)`, the
`comment_added` activity entry's detail payload holds exactly the first 50
characters of the content (`content.substring(0, 50)`, the whole content
when it is at most 50 characters long), while the stored Comment row keeps
the full untruncated content. -/
theorem C10_comment_preview (u : String) (db : DB)
    (documentId content : String) (versionId parentId : Option String)
    (cid actId : String)
    (h : docOwned u db documentId = true) :
    addComment (some u) db documentId content versionId parentId cid actId
        true =
      .ok (okRes
        { id := cid, document_id := documentId, version_id := versionId,
          content := content, created_by := u, parent_id := parentId },
        { db with
            comments := db.comments ++
              [{ id := cid, document_id := documentId,
                 version_id := versionId, content := content,
                 created_by := u, parent_id := parentId }],
            activity_logs := db.activity_logs ++
              [{ id := actId, document_id := documentId, user_id := u,
                 action := "comment_added",
                 details := [("content", .str (substringTo content 50))] }] })
    ∧ (content.length ≤ 50 → substringTo content 50 = content)
    ∧ (substringTo content 50).length ≤ 50 := by
  refine ⟨?_, fun hle => substringTo_of_le content 50 hle,
    substringTo_length_le content 50⟩
  simp [addComment, insertCommentRow, commentInsertCheck, h, finishOp,
    logActivity, insertActivityRow, activityInsertCheck, okRes]

/-! ### C1 -/

/-- C1: every successful `uploadDocumentVersion` assigns version number
1 + the maximum version number existing for the document (1 when it has no
versions); per-document uniqueness of version numbers is preserved by every
upload; and when two uploads have computed the same number, the insert that
serializes second fails with a uniqueness-violation Conflict error and adds
no row (see `listMax_spec` for the fact that `listMax` is the maximum). -/
theorem C1_version_numbering :
    (∀ (u : String) (db : DB) (documentId : String) (file : FileObj)
       (notes : Option String) (uuidToken verId actId : String) (actOk : Bool)
       (res : SbResult VersionRow) (db' : DB) (v : VersionRow),
      uploadDocumentVersion (some u) db documentId file notes uuidToken true
        verId actId actOk = .ok (res, db') →
      res.data = some v →
      v.version_number = nextVersionNumber
        ((db.document_versions.filter (fun x =>
          x.document_id == documentId)).map (fun x => x.version_number))
      ∧ (listMax ((db.document_versions.filter (fun x =>
          x.document_id == documentId)).map (fun x => x.version_number)) =
            none →
          v.version_number = 1)
      ∧ (∀ m : Int, listMax ((db.document_versions.filter (fun x =>
          x.document_id == documentId)).map (fun x => x.version_number)) =
            some m →
          v.version_number = m + 1
          ∧ m ∈ (db.document_versions.filter (fun x =>
              x.document_id == documentId)).map (fun x => x.version_number)
          ∧ ∀ n ∈ (db.document_versions.filter (fun x =>
              x.document_id == documentId)).map (fun x => x.version_number),
            n ≤ m))
    ∧ (∀ (auth : Auth) (db : DB) (documentId : String) (file : FileObj)
         (notes : Option String) (uuidToken : String) (storageOk : Bool)
         (verId actId : String) (actOk : Bool),
      noDupVN db.document_versions = true →
      noDupVN (versionsOf db (uploadDocumentVersion auth db documentId file
        notes uuidToken storageOk verId actId actOk)) = true)
    ∧ (∀ (uid1 uid2 : String) (db : DB) (r1 r2 : VersionRow),
      r1.document_id = r2.document_id →
      r1.version_number = r2.version_number →
      (insertVersionRow uid1 db r1).1.error = none →
      versionInsertCheck uid2 (insertVersionRow uid1 db r1).2 r2 = true →
      (insertVersionRow uid2 (insertVersionRow uid1 db r1).2 r2).1 =
        errRes (.conflict "document_versions_document_id_version_number_key")
      ∧ (insertVersionRow uid2 (insertVersionRow uid1 db r1).2 r2).2 =
        (insertVersionRow uid1 db r1).2) := by
  refine ⟨?_, ?_, ?_⟩
  · intro u db documentId file notes uuidToken verId actId actOk res db' v
      heq hdata
    have h1 := resultOf_eq_of_eq _ _ _ heq
    rw [upload_resultOf] at h1
    injection h1 with h2
    rw [← h2] at hdata
    obtain ⟨hv, hchk⟩ := insertVersionRow_data_some _ _ _ _ hdata
    have hown : docOwned u db documentId = true := by
      simp only [versionInsertCheck, Bool.and_eq_true] at hchk
      exact hchk.1
    have hvn : v.version_number = nextVersionNumber
        ((db.document_versions.filter (fun x =>
          x.document_id == documentId)).map (fun x => x.version_number)) := by
      simp only [hv]
      rw [filter_collapse u db documentId hown]
    refine ⟨hvn, ?_, ?_⟩
    · intro hnone
      rw [hvn]
      unfold nextVersionNumber
      rw [hnone]
    · intro m hm
      refine ⟨?_, (listMax_spec _ _ hm).1, (listMax_spec _ _ hm).2⟩
      rw [hvn]
      unfold nextVersionNumber
      rw [hm]
  · intro auth db documentId file notes uuidToken storageOk verId actId actOk h
    cases auth with
    | none => exact h
    | some u =>
      cases storageOk with
      | false => exact h
      | true =>
        rw [upload_unfold]
        exact noDup_versionsOf_finishOp db _ _
          (fun a => logActivity_versions _ _ _ _ _ _ _)
          (insertVersionRow_noDup _ _ _ h)
  · intro uid1 uid2 db r1 r2 hdoc hvn herr hchk
    have hins := insertVersionRow_ok uid1 db r1 herr
    rw [hins] at hchk ⊢
    have hany : ({ db with document_versions :=
        db.document_versions ++ [r1] }).document_versions.any (fun v =>
          v.document_id == r2.document_id &&
            v.version_number == r2.version_number) = true := by
      show (db.document_versions ++ [r1]).any _ = true
      rw [List.any_append, Bool.or_eq_true]
      right
      simp [hdoc, hvn]
    constructor
    · unfold insertVersionRow
      rw [if_neg (by simp [hchk]), if_pos hany]
    · unfold insertVersionRow
      rw [if_neg (by simp [hchk]), if_pos hany]

/-! ### C2 -/

/-- `docOwned` at a document whose id occurs exactly once says exactly that
this document's creator is the acting identity. -/
theorem docOwned_iff (u : String) (db : DB) (d : DocumentRow)
    (hmem : d ∈ db.documents)
    (huniq : db.documents.filter (fun x => x.id == d.id) = [d]) :
    (docOwned u db d.id = true) ↔ d.created_by = u := by
  unfold docOwned
  rw [List.any_eq_true]
  constructor
  · rintro ⟨x, hx, hpx⟩
    simp only [Bool.and_eq_true, beq_iff_eq] at hpx
    obtain ⟨hxid, hxcb⟩ := hpx
    have hxf : x ∈ db.documents.filter (fun y => y.id == d.id) :=
      List.mem_filter.mpr ⟨hx, by simp [hxid]⟩
    rw [huniq] at hxf
    rw [List.mem_singleton.mp hxf] at hxcb
    exact hxcb
  · intro hcb
    exact ⟨d, hmem, by simp [hcb]⟩

/-- `docPublic` at a document whose id occurs exactly once says exactly that
this document is public. -/
theorem docPublic_iff (db : DB) (d : DocumentRow)
    (hmem : d ∈ db.documents)
    (huniq : db.documents.filter (fun x => x.id == d.id) = [d]) :
    (docPublic db d.id = true) ↔ d.is_public = true := by
  unfold docPublic
  rw [List.any_eq_true]
  constructor
  · rintro ⟨x, hx, hpx⟩
    simp only [Bool.and_eq_true, beq_iff_eq] at hpx
    obtain ⟨hxid, hxpb⟩ := hpx
    have hxf : x ∈ db.documents.filter (fun y => y.id == d.id) :=
      List.mem_filter.mpr ⟨hx, by simp [hxid]⟩
    rw [huniq] at hxf
    rw [List.mem_singleton.mp hxf] at hxpb
    exact hxpb
  · intro hpb
    exact ⟨d, hmem, by simp [hpb]⟩

/-- C2 counterexample: `u2` holds a Share on the private document `d1` of
`u1`, so the claim's access predicate holds, yet `getDocument` fails with a
no-rows (NotFound) error: after the recursion-fix migration a Share no
longer grants read access. -/
theorem C2_counterexample :
    specCanReadDocument "u2" dbShared docD1 = true
    ∧ getDocument (some "u2") dbShared "d1" = .ok (errRes .noRows, dbShared) :=
  ⟨by decide, rfl⟩

/-- C2 (amended): under the final policies a read of document D succeeds iff
the identity created D or D is public — a Share grants no read access;
likewise D's versions and comments are readable iff the identity created D
or D is public, D's approvals iff it created D or is the approval's
assignee, and D's activity entries only if it created D (in which case the
read returns the 50 most recent entries for D). -/
theorem C2_read_access_amended :
    ∀ (u : String) (db : DB) (d : DocumentRow),
      d ∈ db.documents →
      db.documents.filter (fun x => x.id == d.id) = [d] →
      ((getDocument (some u) db d.id = .ok (okRes d, db)) ↔
        (d.created_by = u ∨ d.is_public = true))
      ∧ (∀ v ∈ db.document_versions, v.document_id = d.id →
          (v ∈ listData (getDocumentVersions (some u) db d.id) ↔
            (d.created_by = u ∨ d.is_public = true)))
      ∧ (∀ c ∈ db.comments, c.document_id = d.id →
          (c ∈ listData (getComments (some u) db d.id none) ↔
            (d.created_by = u ∨ d.is_public = true)))
      ∧ (∀ a ∈ db.approvals, a.document_id = d.id →
          (a ∈ listData (getApprovals (some u) db d.id) ↔
            (d.created_by = u ∨ a.assigned_to = u)))
      ∧ (∀ r ∈ db.activity_logs, r.document_id = d.id →
          r ∈ listData (getActivityLog (some u) db d.id) → d.created_by = u)
      ∧ (d.created_by = u →
          listData (getActivityLog (some u) db d.id) =
            ((db.activity_logs.filter (fun r =>
              r.document_id == d.id)).reverse).take 50) := by
  intro u db d hmem huniq
  refine ⟨?_, ?_, ?_, ?_, ?_, ?_⟩
  · have hswap : db.documents.filter (fun x =>
        x.id == d.id && docSelectAllowed (some u) x) =
        db.documents.filter (fun x =>
          docSelectAllowed (some u) x && (x.id == d.id)) :=
      List.filter_congr (fun x _ => Bool.and_comm _ _)
    have hff : db.documents.filter (fun x =>
        x.id == d.id && docSelectAllowed (some u) x) =
        [d].filter (fun x => docSelectAllowed (some u) x) := by
      rw [hswap, ← List.filter_filter, huniq]
    by_cases hsel : docSelectAllowed (some u) d = true
    · have hone : db.documents.filter (fun x =>
          x.id == d.id && docSelectAllowed (some u) x) = [d] := by
        rw [hff]
        simp [hsel]
      constructor
      · intro _
        simpa [docSelectAllowed, Bool.or_eq_true, beq_iff_eq] using hsel
      · intro _
        show Except.ok (single (db.documents.filter (fun x =>
          x.id == d.id && docSelectAllowed (some u) x)), db) = _
        rw [hone]
        rfl
    · have hnone : db.documents.filter (fun x =>
          x.id == d.id && docSelectAllowed (some u) x) = [] := by
        rw [hff]
        simp [Bool.not_eq_true] at hsel
        simp [hsel]
      constructor
      · intro hcontra
        exfalso
        rw [show getDocument (some u) db d.id =
            Except.ok (single (db.documents.filter (fun x =>
              x.id == d.id && docSelectAllowed (some u) x)), db) from rfl,
          hnone] at hcontra
        have : (errRes DbError.noRows : SbResult DocumentRow) = okRes d := by
          injection hcontra with hpair
          exact congrArg Prod.fst hpair
        simp [errRes, okRes] at this
      · intro hrhs
        exfalso
        have : docSelectAllowed (some u) d = true := by
          simp [docSelectAllowed, Bool.or_eq_true, beq_iff_eq]
          exact hrhs
        exact hsel this
  · intro v hv hvd
    show v ∈ db.document_versions.filter (fun x =>
      x.document_id == d.id && versionSelectAllowed (some u) db x) ↔ _
    rw [List.mem_filter]
    simp [hv, hvd, versionSelectAllowed, docOwned_iff u db d hmem huniq,
      docPublic_iff db d hmem huniq]
  · intro c hc hcd
    show c ∈ db.comments.filter (fun x =>
      x.document_id == d.id && commentSelectAllowed (some u) db x) ↔ _
    rw [List.mem_filter]
    simp [hc, hcd, commentSelectAllowed, docOwned_iff u db d hmem huniq,
      docPublic_iff db d hmem huniq]
  · intro a ha had
    show a ∈ db.approvals.filter (fun x =>
      x.document_id == d.id && approvalSelectAllowed (some u) db x) ↔ _
    rw [List.mem_filter]
    simp [ha, had, approvalSelectAllowed, docOwned_iff u db d hmem huniq]
  · intro r hr hrd hmem2
    have hmem3 : r ∈ (db.activity_logs.filter (fun x =>
        x.document_id == d.id && activitySelectAllowed (some u) db x)).reverse :=
      List.mem_of_mem_take hmem2
    rw [List.mem_reverse] at hmem3
    have hp := (List.mem_filter.mp hmem3).2
    simp only [Bool.and_eq_true] at hp
    have hpol := hp.2
    simp only [activitySelectAllowed, hrd] at hpol
    exact (docOwned_iff u db d hmem huniq).mp hpol
  · intro hcb
    show ((db.activity_logs.filter (fun x =>
        x.document_id == d.id && activitySelectAllowed (some u) db x)).reverse).take 50 = _
    have : db.activity_logs.filter (fun x =>
        x.document_id == d.id && activitySelectAllowed (some u) db x) =
        db.activity_logs.filter (fun x => x.document_id == d.id) := by
      apply List.filter_congr
      intro x hx
      by_cases hxd : x.document_id = d.id
      · have : activitySelectAllowed (some u) db x = true := by
          simp only [activitySelectAllowed, hxd]
          exact (docOwned_iff u db d hmem huniq).mpr hcb
        simp [hxd, this]
      · simp [hxd]
    rw [this]

/-! ### C4 -/

/-- Definitional unfolding of `updateApprovalStatus`. -/
theorem update_unfold (auth : Auth) (db : DB) (approvalId : String)
    (status : Resolution) (notes : Option String) (now actId : String)
    (actOk : Bool) :
    updateApprovalStatus auth db approvalId status notes now actId actOk =
      finishOp (single ((db.approvals.filter (fun a =>
          a.id == approvalId && approvalUpdateUsing auth a)).map
          (fun a => { a with status := status.toStatus, notes := notes,
                             updated_at := now })),
        { db with approvals := db.approvals.map (fun a =>
            if a.id == approvalId && approvalUpdateUsing auth a then
              { a with status := status.toStatus, notes := notes,
                       updated_at := now }
            else a) })
        (fun a => logActivity auth
          { db with approvals := db.approvals.map (fun a =>
              if a.id == approvalId && approvalUpdateUsing auth a then
                { a with status := status.toStatus, notes := notes,
                         updated_at := now }
              else a) }
          a.document_id "approval_updated"
          [("status", JsonVal.str (statusText status.toStatus))]
          actId actOk) := rfl

/-- C4 counterexample: the assignee resolves an approval that is already
`approved`, and the call succeeds and flips the stored status to `rejected`
(also appending an activity entry) — there is no `InvalidState` rejection
and the status does change after its first resolution, refuting the claim. -/
theorem C4_counterexample :
    apprA1.status = .approved
    ∧ updateApprovalStatus (some "u2") dbResolved "a1" .rejected none "t2"
        "x1" true =
      .ok (okRes { apprA1 with status := .rejected, notes := none,
                               updated_at := "t2" },
        { dbResolved with
            approvals := [{ apprA1 with status := .rejected, notes := none,
                                        updated_at := "t2" }],
            activity_logs := [{ id := "x1", document_id := "d1",
                                user_id := "u2", action := "approval_updated",
                                details := [("status", .str "rejected")] }] }) :=
  ⟨rfl, rfl⟩

/-- C4 (amended): only the assignee can update an approval — any other (or
anonymous) caller updates zero rows and gets a no-rows error with the state
unchanged — but there is no pending-state check: the assignee's update
succeeds whatever the current status, overwriting it with the new value, so
an already-resolved approval can be re-resolved. -/
theorem C4_resolve_amended :
    (∀ (auth : Auth) (db : DB) (approvalId : String) (status : Resolution)
       (notes : Option String) (now actId : String) (actOk : Bool),
      (∀ a ∈ db.approvals, a.id = approvalId →
        approvalUpdateUsing auth a = false) →
      updateApprovalStatus auth db approvalId status notes now actId actOk =
        .ok (errRes .noRows, db))
    ∧ (∀ (u : String) (db : DB) (a : ApprovalRow) (status : Resolution)
         (notes : Option String) (now actId : String) (actOk : Bool),
      db.approvals.filter (fun b => b.id == a.id) = [a] →
      a.assigned_to = u →
      resultOf (updateApprovalStatus (some u) db a.id status notes now actId
          actOk) =
        .ok (okRes { a with status := status.toStatus, notes := notes,
                            updated_at := now })
      ∧ approvalsOf db (updateApprovalStatus (some u) db a.id status notes now
          actId actOk) =
        db.approvals.map (fun b =>
          if b.id == a.id then
            { a with status := status.toStatus, notes := notes,
                     updated_at := now }
          else b)) := by
  constructor
  · intro auth db approvalId status notes now actId actOk hnone
    have hfil : db.approvals.filter (fun a =>
        a.id == approvalId && approvalUpdateUsing auth a) = [] := by
      rw [List.filter_eq_nil_iff]
      intro a ha
      simp only [Bool.and_eq_true, beq_iff_eq, not_and]
      intro h1 h2
      rw [hnone a ha h1] at h2
      exact Bool.false_ne_true h2
    have hmap : db.approvals.map (fun a =>
        if a.id == approvalId && approvalUpdateUsing auth a then
          { a with status := status.toStatus, notes := notes,
                   updated_at := now }
        else a) = db.approvals := by
      rw [List.map_congr_left (g := id) ?_, List.map_id]
      intro a ha
      have hcond : (a.id == approvalId && approvalUpdateUsing auth a) = false := by
        by_cases h1 : a.id = approvalId
        · simp [hnone a ha h1]
        · simp [h1]
      simp [hcond]
    rw [update_unfold, hfil, hmap]
    rw [finishOp_of_err _ _ DbError.noRows rfl]
    rfl
  · intro u db a status notes now actId actOk hfilter hass
    have honly : ∀ b ∈ db.approvals, b.id = a.id → b = a := by
      intro b hb hbid
      have hmem : b ∈ db.approvals.filter (fun b => b.id == a.id) :=
        List.mem_filter.mpr ⟨hb, by simp [hbid]⟩
      rw [hfilter] at hmem
      exact List.mem_singleton.mp hmem
    have hfil2 : db.approvals.filter (fun b =>
        b.id == a.id && approvalUpdateUsing (some u) b) = [a] := by
      have hcong : db.approvals.filter (fun b =>
          b.id == a.id && approvalUpdateUsing (some u) b) =
          db.approvals.filter (fun b => b.id == a.id) := by
        apply List.filter_congr
        intro b hb
        by_cases hbid : b.id = a.id
        · have hba : b = a := honly b hb hbid
          rw [hba]
          simp [approvalUpdateUsing, hass]
        · simp [hbid]
      rw [hcong, hfilter]
    rw [update_unfold, hfil2]
    rw [finishOp_of_ok _ _
      { a with status := status.toStatus, notes := notes, updated_at := now }
      rfl rfl]
    constructor
    · rfl
    · show (logActivity (some u) _ _ _ _ _ _).approvals = _
      rw [logActivity_approvals]
      show db.approvals.map _ = _
      apply List.map_congr_left
      intro b hb
      by_cases hbid : b.id = a.id
      · have hba : b = a := honly b hb hbid
        rw [hba]
        simp [approvalUpdateUsing, hass]
      · simp [hbid]

/-! ### C5 -/

/-- Definitional unfolding of `shareDocument` when an identity is present. -/
theorem share_unfold (u : String) (db : DB) (documentId sharedWith : String)
    (p : Permission) (rowId actId : String) (actOk : Bool) :
    shareDocument (some u) db documentId sharedWith p rowId actId actOk =
      finishOp (upsertShareRow u db
        { id := rowId, document_id := documentId, shared_with := sharedWith,
          permission := p, shared_by := u })
        (fun _ => logActivity (some u)
          (upsertShareRow u db
            { id := rowId, document_id := documentId,
              shared_with := sharedWith, permission := p, shared_by := u }).2
          documentId "document_shared"
          [("sharedWith", JsonVal.str sharedWith),
           ("permission", JsonVal.str (permissionText p))] actId actOk) := rfl

theorem upsertShareRow_insert_ok (uid : String) (db : DB) (r : ShareRow)
    (hid : ∀ s ∈ db.document_shares, ¬(s.id = r.id))
    (hchk : shareWriteCheck uid r = true)
    (hdup : ∀ s ∈ db.document_shares,
      ¬(s.document_id = r.document_id ∧ s.shared_with = r.shared_with)) :
    upsertShareRow uid db r =
      (okRes r, { db with document_shares := db.document_shares ++ [r] }) := by
  unfold upsertShareRow
  have hf : db.document_shares.find? (fun s => s.id == r.id) = none := by
    rw [List.find?_eq_none]
    intro s hs
    simpa using hid s hs
  have ha : db.document_shares.any (fun s =>
      s.document_id == r.document_id && s.shared_with == r.shared_with) = false := by
    rw [List.any_eq_false]
    intro s hs
    simpa using hdup s hs
  split
  · rename_i s heq
    rw [hf] at heq
    exact Option.noConfusion heq
  · rw [if_neg (by simp [hchk]), if_neg (by simp [ha])]

theorem upsertShareRow_conflict (uid : String) (db : DB) (r : ShareRow)
    (hid : ∀ s ∈ db.document_shares, ¬(s.id = r.id))
    (hchk : shareWriteCheck uid r = true)
    (hdup : ∃ s ∈ db.document_shares,
      s.document_id = r.document_id ∧ s.shared_with = r.shared_with) :
    upsertShareRow uid db r =
      (errRes (.conflict "document_shares_document_id_shared_with_key"), db) := by
  unfold upsertShareRow
  have hf : db.document_shares.find? (fun s => s.id == r.id) = none := by
    rw [List.find?_eq_none]
    intro s hs
    simpa using hid s hs
  have ha : db.document_shares.any (fun s =>
      s.document_id == r.document_id && s.shared_with == r.shared_with) = true := by
    rw [List.any_eq_true]
    obtain ⟨s, hs, h1, h2⟩ := hdup
    exact ⟨s, hs, by simp [h1, h2]⟩
  split
  · rename_i s heq
    rw [hf] at heq
    exact Option.noConfusion heq
  · rw [if_neg (by simp [hchk]), if_pos ha]

theorem sharesOf_finishOp {α : Type} (db : DB) (step : SbResult α × DB)
    (log : α → DB)
    (hlog : ∀ a, (log a).document_shares = step.2.document_shares) :
    sharesOf db (finishOp step log) = step.2.document_shares := by
  unfold finishOp
  split
  · show (log _).document_shares = _
    rw [hlog]
  · rfl

/-- C5 counterexample: `share(d1, u2, edit)` then `share(d1, u2, view)` by
the owner: the second call fails with a uniqueness-violation Conflict (the
upsert's conflict target is the primary key, not `(document_id,
shared_with)`) and the single share row keeps permission `edit`, not
`view`; moreover a non-owner's `shareDocument` on the same document
succeeds, so the operation is not owner-only either. -/
theorem C5_counterexample :
    shareDocument (some "u1") dbOwn "d1" "u2" .edit "s1" "x1" true =
      .ok (okRes share1, dbShare1)
    ∧ shareDocument (some "u1") dbShare1 "d1" "u2" .view "s2" "x2" true =
      .ok (errRes (.conflict "document_shares_document_id_shared_with_key"),
        dbShare1)
    ∧ dbShare1.document_shares = [share1]
    ∧ share1.permission = .edit
    ∧ resultOf (shareDocument (some "u2") dbOwn "d1" "u3" .view "s3" "x3"
        true) =
      .ok (okRes { id := "s3", document_id := "d1", shared_with := "u3",
                   permission := .view, shared_by := "u2" }) :=
  ⟨rfl, rfl, rfl, rfl, rfl⟩

/-- C5 (amended): `shareDocument` succeeds for any authenticated caller (the
final share policy checks only `shared_by = auth.uid()`, which the code sets
itself, so it is not owner-only), and it is not an idempotent upsert on
`(document_id, shared_with)`: with a fresh generated primary key, a first
share for a pair appends one row, while a repeated share for the same pair
fails with a uniqueness-violation Conflict error and leaves the existing row
— and its permission — unchanged. -/
theorem C5_share_amended :
    (∀ (u : String) (db : DB) (documentId sharedWith : String)
       (p : Permission) (rowId actId : String) (actOk : Bool),
      (∀ s ∈ db.document_shares, ¬(s.id = rowId)) →
      (∀ s ∈ db.document_shares,
        ¬(s.document_id = documentId ∧ s.shared_with = sharedWith)) →
      resultOf (shareDocument (some u) db documentId sharedWith p rowId actId
          actOk) =
        .ok (okRes { id := rowId, document_id := documentId,
                     shared_with := sharedWith, permission := p,
                     shared_by := u })
      ∧ sharesOf db (shareDocument (some u) db documentId sharedWith p rowId
          actId actOk) =
        db.document_shares ++ [{ id := rowId, document_id := documentId,
                                  shared_with := sharedWith, permission := p,
                                  shared_by := u }])
    ∧ (∀ (u : String) (db : DB) (documentId sharedWith : String)
         (p : Permission) (rowId actId : String) (actOk : Bool),
      (∀ s ∈ db.document_shares, ¬(s.id = rowId)) →
      (∃ s ∈ db.document_shares,
        s.document_id = documentId ∧ s.shared_with = sharedWith) →
      shareDocument (some u) db documentId sharedWith p rowId actId actOk =
        .ok (errRes (.conflict "document_shares_document_id_shared_with_key"),
          db)) := by
  constructor
  · intro u db documentId sharedWith p rowId actId actOk hid hdup
    rw [share_unfold,
      upsertShareRow_insert_ok u db _ hid (by simp [shareWriteCheck]) hdup]
    constructor
    · rw [resultOf_finishOp]
    · exact (sharesOf_finishOp db _ _
        (fun a => logActivity_shares _ _ _ _ _ _ _)).trans rfl
  · intro u db documentId sharedWith p rowId actId actOk hid hdup
    rw [share_unfold,
      upsertShareRow_conflict u db _ hid (by simp [shareWriteCheck]) hdup]
    rw [finishOp_of_err _ _
      (DbError.conflict "document_shares_document_id_shared_with_key") rfl]

/-! ### C3 -/

/-- C3: `uploadDocumentVersion` succeeds only if the acting identity is the
owner of the document or holds an edit Share on it (in fact the final insert
policy admits only the owner, which implies the claimed disjunction), and an
identity that is neither owner nor edit-share holder fails with a
row-level-security (Forbidden) error: no Version row and no activity entry
is written — only the already-uploaded storage object is left behind. -/
theorem C3_upload_owner_only :
    (∀ (u : String) (db : DB) (documentId : String) (file : FileObj)
       (notes : Option String) (uuidToken verId actId : String) (actOk : Bool)
       (res : SbResult VersionRow) (db' : DB) (v : VersionRow),
      uploadDocumentVersion (some u) db documentId file notes uuidToken true
        verId actId actOk = .ok (res, db') →
      res.data = some v →
      docOwned u db documentId = true ∨ hasEditShare u db documentId = true)
    ∧ (∀ (u : String) (db : DB) (documentId : String) (file : FileObj)
         (notes : Option String) (uuidToken verId actId : String)
         (actOk : Bool),
      docOwned u db documentId = false →
      hasEditShare u db documentId = false →
      uploadDocumentVersion (some u) db documentId file notes uuidToken true
        verId actId actOk =
        .ok (errRes (.rlsViolation "document_versions"),
          { db with storage_objects := db.storage_objects ++
              [versionFilePath documentId uuidToken file.name] })) := by
  constructor
  · intro u db documentId file notes uuidToken verId actId actOk res db' v
      heq hdata
    have h1 := resultOf_eq_of_eq _ _ _ heq
    rw [upload_resultOf] at h1
    injection h1 with h2
    rw [← h2] at hdata
    obtain ⟨hv, hchk⟩ := insertVersionRow_data_some _ _ _ _ hdata
    simp only [versionInsertCheck, Bool.and_eq_true] at hchk
    exact Or.inl hchk.1
  · intro u db documentId file notes uuidToken verId actId actOk hown hshare
    rw [upload_unfold]
    have hchk : versionInsertCheck u
        { db with storage_objects :=
            db.storage_objects ++ [versionFilePath documentId uuidToken file.name] }
        { id := verId, document_id := documentId,
          version_number := nextVersionNumber
            ((db.document_versions.filter (fun x =>
              x.document_id == documentId &&
                versionSelectAllowed (some u) db x)).map
              (fun x => x.version_number)),
          file_path := versionFilePath documentId uuidToken file.name,
          file_name := file.name, file_size := file.size,
          mime_type := file.type, uploaded_by := u, notes := notes } = false := by
      simp only [versionInsertCheck, docOwned_storage]
      simp [hown]
    rw [insertVersionRow_not_allowed _ _ _ hchk]
    rw [finishOp_of_err _ _ (DbError.rlsViolation "document_versions") rfl]

/-! ### C6 -/

/-- C6 counterexample: the storage path of an uploaded version does depend
on the original file name — its extension (`file.name.split('.').pop()`)
becomes the path suffix — so two uploads differing only in the file name can
get different storage locations, refuting "never derived from any part of
the original file name". -/
theorem C6_counterexample :
    versionFilePath "d1" "tok" "a.pdf" ≠ versionFilePath "d1" "tok" "a.txt"
    ∧ versionFilePath "d1" "tok" "a.pdf" = "d1/tok.pdf" := by
  constructor
  · decide
  · rfl

/-- C6 (amended): the storage path is
`documentId ++ "/" ++ token ++ "." ++ ext`, where `ext` is the last
dot-separated component of the original file name (the whole name when it
has no dot); the path depends on the file name only through this extension,
and the full original file name and declared media type are persisted only
as metadata fields (`file_name`, `mime_type`) of the Version row. -/
theorem C6_file_path_amended :
    (∀ (documentId uuidToken name : String),
      versionFilePath documentId uuidToken name =
        documentId ++ "/" ++ uuidToken ++ "." ++ jsFileExt name)
    ∧ (∀ (documentId uuidToken n1 n2 : String),
      jsFileExt n1 = jsFileExt n2 →
      versionFilePath documentId uuidToken n1 =
        versionFilePath documentId uuidToken n2)
    ∧ (∀ (u : String) (db : DB) (documentId : String) (file : FileObj)
         (notes : Option String) (uuidToken verId actId : String)
         (actOk : Bool) (res : SbResult VersionRow) (db' : DB) (v : VersionRow),
      uploadDocumentVersion (some u) db documentId file notes uuidToken true
        verId actId actOk = .ok (res, db') →
      res.data = some v →
      v.file_path = versionFilePath documentId uuidToken file.name ∧
      v.file_name = file.name ∧ v.mime_type = file.type) := by
  refine ⟨fun _ _ _ => rfl, ?_, ?_⟩
  · intro documentId uuidToken n1 n2 h
    unfold versionFilePath
    rw [h]
  · intro u db documentId file notes uuidToken verId actId actOk res db' v
      heq hdata
    have h1 := resultOf_eq_of_eq _ _ _ heq
    rw [upload_resultOf] at h1
    injection h1 with h2
    rw [← h2] at hdata
    obtain ⟨hv, hchk⟩ := insertVersionRow_data_some _ _ _ _ hdata
    subst hv
    exact ⟨rfl, rfl, rfl⟩

/-! ### Witnesses -/

theorem C1_witness :
    c1row.version_number = nextVersionNumber
      ((dbVer.document_versions.filter (fun x =>
        x.document_id == "d1")).map (fun x => x.version_number))
    ∧ noDupVN (versionsOf dbVer (uploadDocumentVersion (some "u1") dbVer "d1"
        fileSpec none "tok" true "v2" "x9" true)) = true
    ∧ (insertVersionRow "u1" (insertVersionRow "u1" dbVer c1row).2 c1rowB).1 =
        errRes (.conflict "document_versions_document_id_version_number_key") :=
  ⟨(C1_version_numbering.1 "u1" dbVer "d1" fileSpec none "tok" "v2" "x9" true
      c1res c1db c1row rfl rfl).1,
   C1_version_numbering.2.1 (some "u1") dbVer "d1" fileSpec none "tok" true
      "v2" "x9" true (by decide),
   (C1_version_numbering.2.2 "u1" "u1" dbVer c1row c1rowB rfl rfl
      (by decide) (by decide)).1⟩

theorem C2_witness :
    docD1 ∈ dbOwn.documents
    ∧ getDocument (some "u1") dbOwn "d1" = .ok (okRes docD1, dbOwn) :=
  ⟨by decide,
   (C2_read_access_amended "u1" dbOwn docD1 (by decide) (by decide)).1.mpr
     (Or.inl rfl)⟩

theorem C3_witness :
    docOwned "u3" dbOwn "d1" = false
    ∧ hasEditShare "u3" dbOwn "d1" = false
    ∧ uploadDocumentVersion (some "u3") dbOwn "d1" fileSpec none "tk" true
        "v9" "x9" true =
      .ok (errRes (.rlsViolation "document_versions"),
        { dbOwn with storage_objects := dbOwn.storage_objects ++
            [versionFilePath "d1" "tk" "spec.pdf"] })
    ∧ (docOwned "u1" dbVer "d1" = true ∨ hasEditShare "u1" dbVer "d1" = true) :=
  ⟨by decide, by decide,
   C3_upload_owner_only.2 "u3" dbOwn "d1" fileSpec none "tk" "v9" "x9" true
     (by decide) (by decide),
   C3_upload_owner_only.1 "u1" dbVer "d1" fileSpec none "tok" "v2" "x9" true
     c1res c1db c1row rfl rfl⟩

theorem C4_witness :
    dbResolved.approvals.filter (fun b => b.id == apprA1.id) = [apprA1]
    ∧ apprA1.status = .approved
    ∧ resultOf (updateApprovalStatus (some "u2") dbResolved apprA1.id
        .rejected none "t2" "x1" true) =
      .ok (okRes { apprA1 with status := Resolution.rejected.toStatus,
                               notes := none, updated_at := "t2" }) :=
  ⟨by decide, rfl,
   (C4_resolve_amended.2 "u2" dbResolved apprA1 .rejected none "t2" "x1" true
     (by decide) rfl).1⟩

theorem C5_witness :
    resultOf (shareDocument (some "u1") dbOwn "d1" "u2" .edit "s1" "x1"
        true) =
      .ok (okRes { id := "s1", document_id := "d1", shared_with := "u2",
                   permission := .edit, shared_by := "u1" })
    ∧ shareDocument (some "u1") dbShare1 "d1" "u2" .view "s2" "x2" true =
      .ok (errRes (.conflict "document_shares_document_id_shared_with_key"),
        dbShare1) :=
  ⟨(C5_share_amended.1 "u1" dbOwn "d1" "u2" .edit "s1" "x1" true (by decide)
      (by decide)).1,
   C5_share_amended.2 "u1" dbShare1 "d1" "u2" .view "s2" "x2" true
     (by decide) (by decide)⟩

theorem C6_witness :
    jsFileExt "a.pdf" = jsFileExt "b.pdf"
    ∧ versionFilePath "d1" "tok" "a.pdf" = versionFilePath "d1" "tok" "b.pdf"
    ∧ c1row.file_path = versionFilePath "d1" "tok" "spec.pdf" :=
  ⟨by decide,
   C6_file_path_amended.2.1 "d1" "tok" "a.pdf" "b.pdf" (by decide),
   (C6_file_path_amended.2.2 "u1" dbVer "d1" fileSpec none "tok" "v2" "x9"
     true c1res c1db c1row rfl rfl).1⟩

theorem C10_witness :
    docOwned "u1" dbOwn "d1" = true
    ∧ addComment (some "u1") dbOwn "d1" "hello" none none "c1" "a1" true =
      .ok (okRes { id := "c1", document_id := "d1", version_id := none,
                   content := "hello", created_by := "u1",
                   parent_id := none },
        { dbOwn with
            comments := dbOwn.comments ++
              [{ id := "c1", document_id := "d1", version_id := none,
                 content := "hello", created_by := "u1",
                 parent_id := none }],
            activity_logs := dbOwn.activity_logs ++
              [{ id := "a1", document_id := "d1", user_id := "u1",
                 action := "comment_added",
                 details := [("content", .str (substringTo "hello" 50))] }] }) :=
  ⟨by decide,
   (C10_comment_preview "u1" dbOwn "d1" "hello" none none "c1" "a1"
     (by decide)).1⟩

end DocuFlow
